import Mathlib

/-!
Verification of the repository-metadata fetcher in
`src/app/pages/projects/functions.ts`: `getRepoStars` and
`getRepoLastCommitDate`, a cache-first lookup of GitHub star counts and
last-commit dates with best-effort KV cache writes.

The two functions are shallowly embedded as pure Lean functions over
explicit oracles for the external effects:
  * `KVGet` — the outcome of `env.REPO_CACHE.get(cacheKey)` (a string,
    `null`, or a thrown error);
  * `UpstreamStars` / `UpstreamCommits` — the outcome of the `fetch` to the
    GitHub API (a thrown network/JSON error, a non-ok response, or an ok
    response with the parsed JSON body);
  * a `putFails` flag — whether `env.REPO_CACHE.put` throws.
Each embedded function returns the value produced together with an
`Effects` trace recording the upstream request URLs issued and the cache
writes attempted (key, value, TTL), so that claims about call counts and
cache mutation can be stated. A thrown JS exception anywhere on the path
is modelled by the corresponding oracle constructor; the functions
themselves are total, mirroring the fact that every failure mode in the
source is caught and converted to `null` (modelled as `none`).
-/

namespace RepoMeta

/-- Whitespace characters skipped by JS `Number.parseInt` before the sign
and digits (the common ones: space, tab, newline, carriage return). -/
def isJsSpace (c : Char) : Bool :=
  (c == ' ') || (c == '\t') || (c == '\n') || (c == '\r')

/-- Numeric value of a list of decimal digit characters. -/
def digitsToNat (ds : List Char) : Nat :=
  ds.foldl (fun a c => a * 10 + (c.toNat - 48)) 0

/-- JS `Number.parseInt(s, 10)`: skip leading whitespace, read an optional
sign, then the longest prefix of decimal digits; `none` models `NaN`
(no digits found), which fails the `Number.isFinite` check in the source. -/
def parseIntBase10 (s : String) : Option Int :=
  match s.toList.dropWhile isJsSpace with
  | '-' :: r =>
      let ds := r.takeWhile Char.isDigit
      if ds.isEmpty then none else some (-(digitsToNat ds : Int))
  | '+' :: r =>
      let ds := r.takeWhile Char.isDigit
      if ds.isEmpty then none else some (digitsToNat ds : Int)
  | r =>
      let ds := r.takeWhile Char.isDigit
      if ds.isEmpty then none else some (digitsToNat ds : Int)

/-- Outcome of `env.REPO_CACHE.get(cacheKey)`: a stored string, absence
(`null`), or a thrown error (caught and logged in the source). -/
inductive KVGet
  | value (s : String)
  | absent
  | throwErr
deriving DecidableEq, Repr

/-- Outcome of the `fetch` in `getRepoStars`: a thrown error (network
failure or `response.json()` failure), a non-ok HTTP response with its
status, or an ok response whose `stargazers_count` field is
`some v` when present and a number, `none` when absent or non-numeric. -/
inductive UpstreamStars
  | throwErr
  | notOk (status : Nat)
  | ok (stargazers : Option Int)
deriving DecidableEq, Repr

/-- The `committer` object of a commit record: `date` is `some d` when the
field is present (possibly the empty string), `none` when absent. -/
structure CommitCommitter where
  date : Option String
deriving DecidableEq, Repr

/-- The `commit` object of a commit record. -/
structure CommitInner where
  committer : Option CommitCommitter
deriving DecidableEq, Repr

/-- One element of the JSON array returned by the commit-list endpoint. -/
structure CommitRecord where
  commit : Option CommitInner
deriving DecidableEq, Repr

/-- Outcome of the `fetch` in `getRepoLastCommitDate`. -/
inductive UpstreamCommits
  | throwErr
  | notOk (status : Nat)
  | ok (data : List CommitRecord)
deriving DecidableEq, Repr

/-- Trace of external effects of one run: the upstream request URLs issued
and the cache writes attempted, each as (key, value, expirationTtl). -/
structure Effects where
  requests : List String
  cacheWrites : List (String × String × Nat)
deriving DecidableEq, Repr

/-- Request URL of `getRepoStars`. -/
def starsUrl (owner repo : String) : String :=
  "https://api.github.com/repos/" ++ owner ++ "/" ++ repo

/-- Base URL of the commit-list endpoint in `getRepoLastCommitDate`. -/
def commitsBaseUrl (owner repo : String) : String :=
  "https://api.github.com/repos/" ++ owner ++ "/" ++ repo ++ "/commits"

/-- The URL actually requested by `getRepoLastCommitDate`. -/
def commitsRequestUrl (owner repo : String) : String :=
  commitsBaseUrl owner repo ++ "?per_page=1"

/-- Cache key of `getRepoStars`. -/
def starsCacheKey (owner repo : String) : String :=
  "stars:" ++ owner ++ "/" ++ repo

/-- Cache key of `getRepoLastCommitDate`. -/
def lastCommitCacheKey (owner repo : String) : String :=
  "last-commit:" ++ owner ++ "/" ++ repo

/-- The cache-read step of `getRepoStars` (source lines 26–36): if the KV
read yields a truthy string (non-empty; `null` and a thrown error fall
through), parse it with `Number.parseInt(·, 10)`; a finite result is a
cache hit, anything else falls through to the fetch. -/
def starsCachedHit (g : KVGet) : Option Int :=
  match g with
  | .value s => if s = "" then none else parseIntBase10 s
  | .absent => none
  | .throwErr => none

/-- The cache-read step of `getRepoLastCommitDate` (source lines 89–96): a
truthy (non-empty) cached string is returned as-is; `null`, the empty
string and a thrown read error fall through to the fetch. -/
def commitsCachedHit (g : KVGet) : Option String :=
  match g with
  | .value s => if s = "" then none else some s
  | .absent => none
  | .throwErr => none

/-- `data[0]?.commit?.committer?.date` on the parsed commit-list body. -/
def extractLastCommitDate (data : List CommitRecord) : Option String :=
  match data.head? with
  | none => none
  | some r =>
    match r.commit with
    | none => none
    | some inner =>
      match inner.committer with
      | none => none
      | some cm => cm.date

/-- Embedding of `getRepoStars` (source lines 10–71). A cache hit returns
at once with no effects. Otherwise the fetch to `starsUrl` is issued; a
thrown fetch/JSON error or a non-ok response yields `null` with no cache
write; an ok response with a numeric `stargazers_count` is written to the
cache under `starsCacheKey` with `expirationTtl: 300` (the write attempt
is recorded whether or not the put throws — `putFails` — since its `catch`
only logs) and returned; a missing or non-numeric field yields `null`. -/
def getRepoStars (owner repo : String) (g : KVGet) (putFails : Bool)
    (u : UpstreamStars) : Option Int × Effects :=
  match starsCachedHit g with
  | some n => (some n, ⟨[], []⟩)
  | none =>
    match u with
    | .throwErr => (none, ⟨[starsUrl owner repo], []⟩)
    | .notOk _ => (none, ⟨[starsUrl owner repo], []⟩)
    | .ok stargazers =>
      match stargazers with
      | some stars =>
          (some stars,
            ⟨[starsUrl owner repo],
             [(starsCacheKey owner repo, toString stars, 300)]⟩)
      | none => (none, ⟨[starsUrl owner repo], []⟩)

/-- Embedding of `getRepoLastCommitDate` (source lines 73–137). A truthy
cached string is returned verbatim with no effects. Otherwise the fetch to
`commitsRequestUrl` (`?per_page=1`) is issued; a thrown error or non-ok
response yields `null`; from an ok response the date is extracted via
`data[0]?.commit?.committer?.date`, and a falsy result (absent anywhere
along the chain, or the empty string) yields `null` with no cache write;
a truthy date is written to the cache under `lastCommitCacheKey` with
`expirationTtl: 300` (best-effort) and returned. -/
def getRepoLastCommitDate (owner repo : String) (g : KVGet) (putFails : Bool)
    (u : UpstreamCommits) : Option String × Effects :=
  match commitsCachedHit g with
  | some s => (some s, ⟨[], []⟩)
  | none =>
    match u with
    | .throwErr => (none, ⟨[commitsRequestUrl owner repo], []⟩)
    | .notOk _ => (none, ⟨[commitsRequestUrl owner repo], []⟩)
    | .ok data =>
      match extractLastCommitDate data with
      | none => (none, ⟨[commitsRequestUrl owner repo], []⟩)
      | some d =>
        if d = "" then (none, ⟨[commitsRequestUrl owner repo], []⟩)
        else
          (some d,
            ⟨[commitsRequestUrl owner repo],
             [(lastCommitCacheKey owner repo, d, 300)]⟩)

/-- A commit record carrying a committer date, as returned by the API. -/
def mkCommit (d : String) : CommitRecord :=
  ⟨some ⟨some ⟨some d⟩⟩⟩

/-- The upstream outcomes of `getRepoStars` that are failures: a thrown
network/JSON error, a non-ok response, or an ok response whose
`stargazers_count` is absent or non-numeric. -/
def starsUpstreamFailed : UpstreamStars → Prop
  | .throwErr => True
  | .notOk _ => True
  | .ok stargazers => stargazers = none

/-- The upstream outcomes of `getRepoLastCommitDate` that are failures: a
thrown error, a non-ok response, or an ok response from which no truthy
committer date can be extracted. -/
def commitsUpstreamFailed : UpstreamCommits → Prop
  | .throwErr => True
  | .notOk _ => True
  | .ok data =>
      extractLastCommitDate data = none ∨ extractLastCommitDate data = some ""

theorem parseIntBase10_empty : parseIntBase10 "" = none := rfl

theorem parseIntBase10_ne_empty {s : String} {n : Int}
    (h : parseIntBase10 s = some n) : s ≠ "" := by
  intro he
  subst he
  rw [parseIntBase10_empty] at h
  cases h

theorem starsCachedHit_of_parse {s : String} {n : Int}
    (h : parseIntBase10 s = some n) : starsCachedHit (.value s) = some n := by
  have hne := parseIntBase10_ne_empty h
  simp [starsCachedHit, hne, h]

theorem starsCachedHit_of_parse_none {s : String}
    (h : parseIntBase10 s = none) : starsCachedHit (.value s) = none := by
  by_cases he : s = "" <;> simp [starsCachedHit, he, h]

theorem getRepoStars_hit (owner repo : String) {g : KVGet} {n : Int}
    (pf : Bool) (u : UpstreamStars) (h : starsCachedHit g = some n) :
    getRepoStars owner repo g pf u = (some n, ⟨[], []⟩) := by
  simp [getRepoStars, h]

theorem getRepoStars_miss_requests (owner repo : String) {g : KVGet}
    (pf : Bool) (u : UpstreamStars) (h : starsCachedHit g = none) :
    (getRepoStars owner repo g pf u).2.requests = [starsUrl owner repo] := by
  cases u with
  | throwErr => simp [getRepoStars, h]
  | notOk st => simp [getRepoStars, h]
  | ok sg => cases sg <;> simp [getRepoStars, h]

/-- C1: for every owner/repo pair, a warm cache entry — a string whose
`parseInt` is a finite integer for `getRepoStars`, any non-empty string
for `getRepoLastCommitDate` — is returned immediately, with no upstream
request and no cache write. -/
theorem warm_cache_hit_no_upstream (owner repo s t : String) (n : Int)
    (pf1 pf2 : Bool) (u1 : UpstreamStars) (u2 : UpstreamCommits)
    (hs : parseIntBase10 s = some n) (ht : t ≠ "") :
    getRepoStars owner repo (.value s) pf1 u1 = (some n, ⟨[], []⟩) ∧
    getRepoLastCommitDate owner repo (.value t) pf2 u2 = (some t, ⟨[], []⟩) := by
  constructor
  · exact getRepoStars_hit owner repo pf1 u1 (starsCachedHit_of_parse hs)
  · simp [getRepoLastCommitDate, commitsCachedHit, ht]

/-- Witness for C1 at a concrete warm cache: a cached "42" and a cached
timestamp string are returned with empty effect traces even though the
upstream oracle would throw. -/
theorem warm_cache_hit_no_upstream_witness :
    getRepoStars "acme" "widgets" (.value "42") false .throwErr
      = (some 42, ⟨[], []⟩) ∧
    getRepoLastCommitDate "acme" "widgets" (.value "2025-01-01T00:00:00Z")
        false .throwErr
      = (some "2025-01-01T00:00:00Z", ⟨[], []⟩) :=
  warm_cache_hit_no_upstream "acme" "widgets" "42" "2025-01-01T00:00:00Z" 42
    false false .throwErr .throwErr (by decide) (by decide)

/-- C2: on a cache miss with the upstream returning a numeric star count,
`getRepoStars` issues exactly one upstream request, returns the fetched
count, and attempts exactly one cache write of its decimal string under
the stars key with TTL 300; concretely, with empty cache and upstream
`stargazers_count` 42, `getRepoStars "acme" "widgets"` returns 42 and
writes "42" under "stars:acme/widgets". -/
theorem miss_then_success_one_call_one_write (owner repo : String)
    (pf : Bool) (v : Int) :
    getRepoStars owner repo .absent pf (.ok (some v)) =
      (some v, ⟨[starsUrl owner repo],
                [(starsCacheKey owner repo, toString v, 300)]⟩) ∧
    getRepoStars "acme" "widgets" .absent false (.ok (some 42)) =
      (some 42, ⟨["https://api.github.com/repos/acme/widgets"],
                 [("stars:acme/widgets", "42", 300)]⟩) := by
  constructor
  · simp [getRepoStars, starsCachedHit]
  · decide

/-- C3: on a cache miss with a non-ok upstream response (any status), both
functions return the unknown-marker `none` with no cache write; totality
of the embedding reflects that no exception escapes. -/
theorem miss_then_http_failure_no_write (owner repo : String)
    (pf1 pf2 : Bool) (st1 st2 : Nat) :
    getRepoStars owner repo .absent pf1 (.notOk st1) =
      (none, ⟨[starsUrl owner repo], []⟩) ∧
    getRepoLastCommitDate owner repo .absent pf2 (.notOk st2) =
      (none, ⟨[commitsRequestUrl owner repo], []⟩) := by
  constructor
  · simp [getRepoStars, starsCachedHit]
  · simp [getRepoLastCommitDate, commitsCachedHit]

/-- C4: a malformed upstream payload — `stargazers_count` absent or
non-numeric for `getRepoStars`, an empty commit list for
`getRepoLastCommitDate` — yields the unknown-marker `none` as a returned
value (not a thrown error) and no cache write occurs. -/
theorem malformed_payload_unknown_no_write (owner repo : String)
    (pf1 pf2 : Bool) :
    getRepoStars owner repo .absent pf1 (.ok none) =
      (none, ⟨[starsUrl owner repo], []⟩) ∧
    getRepoLastCommitDate owner repo .absent pf2 (.ok []) =
      (none, ⟨[commitsRequestUrl owner repo], []⟩) := by
  constructor
  · simp [getRepoStars, starsCachedHit]
  · simp [getRepoLastCommitDate, commitsCachedHit, extractLastCommitDate]

/-- C5 counterexample: a cache-store read failure is one of the listed
expected failure modes, yet with the upstream succeeding with 42 stars,
`getRepoStars` returns 42 — not the unknown-marker `none` — refuting the
claim that every expected failure resolves to the unknown-marker. -/
theorem cache_read_failure_not_unknown_cex :
    (getRepoStars "acme" "widgets" .throwErr false (.ok (some 42))).1
        = some 42 ∧
    some (42 : Int) ≠ none := by
  constructor
  · rfl
  · simp

/-- C5 (amended): neither function throws — both are total, always
returning a value or the unknown-marker `none` — and whenever the cache
step produces no hit, every upstream failure (thrown network or JSON
error, non-ok response, malformed payload) resolves to the unknown-marker;
cache-store failures alone do not force the unknown-marker. -/
theorem failures_degrade_to_unknown (owner repo : String) (g1 g2 : KVGet)
    (pf1 pf2 : Bool) (u1 : UpstreamStars) (u2 : UpstreamCommits)
    (h1 : starsCachedHit g1 = none) (h2 : commitsCachedHit g2 = none)
    (hu1 : starsUpstreamFailed u1) (hu2 : commitsUpstreamFailed u2) :
    (getRepoStars owner repo g1 pf1 u1).1 = none ∧
    (getRepoLastCommitDate owner repo g2 pf2 u2).1 = none := by
  constructor
  · cases u1 with
    | throwErr => simp [getRepoStars, h1]
    | notOk st => simp [getRepoStars, h1]
    | ok sg =>
        have hsg : sg = none := hu1
        subst hsg
        simp [getRepoStars, h1]
  · cases u2 with
    | throwErr => simp [getRepoLastCommitDate, h2]
    | notOk st => simp [getRepoLastCommitDate, h2]
    | ok data =>
        have hx : extractLastCommitDate data = none ∨
            extractLastCommitDate data = some "" := hu2
        rcases hx with hx | hx <;> simp [getRepoLastCommitDate, h2, hx]

/-- Witness for the amended C5: with an empty cache and a 403 upstream
response, both functions return the unknown-marker. -/
theorem failures_degrade_to_unknown_witness :
    (getRepoStars "acme" "widgets" .absent false (.notOk 403)).1 = none ∧
    (getRepoLastCommitDate "acme" "widgets" .absent false (.notOk 403)).1
        = none :=
  failures_degrade_to_unknown "acme" "widgets" .absent .absent false false
    (.notOk 403) (.notOk 403) rfl rfl trivial trivial

/-- C6: cache-store failures are harmless — a read failure still proceeds
to the upstream fetch (the request is issued), and whenever the upstream
fetch succeeds with a valid value, that value is returned for every
non-hit cache-read outcome and for either setting of the write-failure
flag. -/
theorem cache_store_failure_harmless (owner repo d : String) (v : Int)
    (g1 g2 : KVGet) (pf1 pf2 : Bool)
    (h1 : starsCachedHit g1 = none) (h2 : commitsCachedHit g2 = none)
    (hd : d ≠ "") :
    (getRepoStars owner repo g1 pf1 (.ok (some v))).1 = some v ∧
    (getRepoStars owner repo .throwErr pf1 (.ok (some v))).2.requests
        = [starsUrl owner repo] ∧
    (getRepoLastCommitDate owner repo g2 pf2 (.ok [mkCommit d])).1 = some d ∧
    (getRepoLastCommitDate owner repo .throwErr pf2
        (.ok [mkCommit d])).2.requests = [commitsRequestUrl owner repo] := by
  refine ⟨?_, ?_, ?_, ?_⟩
  · simp [getRepoStars, h1]
  · simp [getRepoStars, starsCachedHit]
  · simp [getRepoLastCommitDate, h2, extractLastCommitDate, mkCommit, hd]
  · simp [getRepoLastCommitDate, commitsCachedHit, extractLastCommitDate,
      mkCommit, hd]

/-- Witness for C6: with a throwing cache read and a throwing cache write,
the successfully fetched star count and commit date are still returned
and the upstream requests were issued. -/
theorem cache_store_failure_harmless_witness :
    (getRepoStars "acme" "widgets" .throwErr true (.ok (some 42))).1
        = some 42 ∧
    (getRepoStars "acme" "widgets" .throwErr true (.ok (some 42))).2.requests
        = [starsUrl "acme" "widgets"] ∧
    (getRepoLastCommitDate "acme" "widgets" .throwErr true
        (.ok [mkCommit "2025-01-01T00:00:00Z"])).1
        = some "2025-01-01T00:00:00Z" ∧
    (getRepoLastCommitDate "acme" "widgets" .throwErr true
        (.ok [mkCommit "2025-01-01T00:00:00Z"])).2.requests
        = [commitsRequestUrl "acme" "widgets"] :=
  cache_store_failure_harmless "acme" "widgets" "2025-01-01T00:00:00Z" 42
    .throwErr .throwErr true true rfl rfl (by decide)

/-- C7: every cache write either function attempts uses the composite key
of the form kind:owner/repo with kind "stars" respectively "last-commit",
carries TTL 300 (within the 300–3600 second range), stores the fetched
value, and happens only after a successful upstream fetch of a valid
value (so the upstream request list is non-empty). -/
theorem cache_write_invariant (owner repo : String) (g1 g2 : KVGet)
    (pf1 pf2 : Bool) (u1 : UpstreamStars) (u2 : UpstreamCommits) :
    (∀ w ∈ (getRepoStars owner repo g1 pf1 u1).2.cacheWrites,
        w.1 = "stars:" ++ owner ++ "/" ++ repo ∧
        300 ≤ w.2.2 ∧ w.2.2 ≤ 3600 ∧
        (∃ v : Int, u1 = .ok (some v) ∧ w.2.1 = toString v) ∧
        (getRepoStars owner repo g1 pf1 u1).2.requests ≠ []) ∧
    (∀ w ∈ (getRepoLastCommitDate owner repo g2 pf2 u2).2.cacheWrites,
        w.1 = "last-commit:" ++ owner ++ "/" ++ repo ∧
        300 ≤ w.2.2 ∧ w.2.2 ≤ 3600 ∧
        (∃ data, u2 = .ok data ∧
          extractLastCommitDate data = some w.2.1 ∧ w.2.1 ≠ "") ∧
        (getRepoLastCommitDate owner repo g2 pf2 u2).2.requests ≠ []) := by
  constructor
  · intro w hw
    cases hg : starsCachedHit g1 with
    | some n => simp [getRepoStars, hg] at hw
    | none =>
        cases u1 with
        | throwErr => simp [getRepoStars, hg] at hw
        | notOk st => simp [getRepoStars, hg] at hw
        | ok sg =>
            cases sg with
            | none => simp [getRepoStars, hg] at hw
            | some v =>
                simp [getRepoStars, hg] at hw
                subst hw
                exact ⟨rfl, by norm_num, by norm_num, ⟨v, rfl, rfl⟩,
                  by simp [getRepoStars, hg]⟩
  · intro w hw
    cases hg : commitsCachedHit g2 with
    | some s => simp [getRepoLastCommitDate, hg] at hw
    | none =>
        cases u2 with
        | throwErr => simp [getRepoLastCommitDate, hg] at hw
        | notOk st => simp [getRepoLastCommitDate, hg] at hw
        | ok data =>
            cases hx : extractLastCommitDate data with
            | none => simp [getRepoLastCommitDate, hg, hx] at hw
            | some d =>
                by_cases hd : d = ""
                · simp [getRepoLastCommitDate, hg, hx, hd] at hw
                · simp [getRepoLastCommitDate, hg, hx, hd] at hw
                  subst hw
                  exact ⟨rfl, by norm_num, by norm_num, ⟨data, rfl, hx, hd⟩,
                    by simp [getRepoLastCommitDate, hg, hx, hd]⟩

/-- Witness for C7: the single write performed in the concrete
miss-then-success run for stars satisfies the key, TTL, value and
ordering conditions. -/
theorem cache_write_invariant_witness :
    (("stars:acme/widgets", "42", (300 : Nat)) : String × String × Nat).1
        = "stars:" ++ "acme" ++ "/" ++ "widgets" ∧
    300 ≤ (("stars:acme/widgets", "42", (300 : Nat)) :
        String × String × Nat).2.2 ∧
    (("stars:acme/widgets", "42", (300 : Nat)) :
        String × String × Nat).2.2 ≤ 3600 ∧
    (∃ v : Int, UpstreamStars.ok (some 42) = .ok (some v) ∧
      (("stars:acme/widgets", "42", (300 : Nat)) :
        String × String × Nat).2.1 = toString v) ∧
    (getRepoStars "acme" "widgets" .absent false
        (.ok (some 42))).2.requests ≠ [] :=
  (cache_write_invariant "acme" "widgets" .absent .absent false false
      (.ok (some 42)) (.ok [])).1
    ("stars:acme/widgets", "42", 300) (by decide)

/-- C8: on a cache miss, `getRepoLastCommitDate` requests the commit-list
endpoint with the single-commit query string `?per_page=1` and returns the
committer date of the first returned commit record; concretely, with the
one-element upstream list carrying date 2025-01-01T00:00:00Z, it returns
that date. -/
theorem last_commit_request_and_first_record (owner repo d : String)
    (pf : Bool) (rest : List CommitRecord) (hd : d ≠ "") :
    getRepoLastCommitDate owner repo .absent pf (.ok (mkCommit d :: rest)) =
      (some d, ⟨[commitsBaseUrl owner repo ++ "?per_page=1"],
                [(lastCommitCacheKey owner repo, d, 300)]⟩) ∧
    getRepoLastCommitDate "acme" "widgets" .absent false
        (.ok [mkCommit "2025-01-01T00:00:00Z"]) =
      (some "2025-01-01T00:00:00Z",
        ⟨["https://api.github.com/repos/acme/widgets/commits?per_page=1"],
         [("last-commit:acme/widgets", "2025-01-01T00:00:00Z", 300)]⟩) := by
  constructor
  · simp [getRepoLastCommitDate, commitsCachedHit, extractLastCommitDate,
      mkCommit, commitsRequestUrl, hd]
  · decide

/-- Witness for C8: the concrete scenario from the specification. -/
theorem last_commit_request_and_first_record_witness :
    getRepoLastCommitDate "acme" "widgets" .absent false
        (.ok [mkCommit "2025-01-01T00:00:00Z"]) =
      (some "2025-01-01T00:00:00Z",
        ⟨[commitsBaseUrl "acme" "widgets" ++ "?per_page=1"],
         [(lastCommitCacheKey "acme" "widgets",
           "2025-01-01T00:00:00Z", 300)]⟩) :=
  (last_commit_request_and_first_record "acme" "widgets"
      "2025-01-01T00:00:00Z" false [] (by decide)).1

/-- C9: any non-empty string cached under the last-commit key is returned
verbatim by `getRepoLastCommitDate` — no parsing or timestamp validation,
no upstream request, no cache write — for every upstream oracle. -/
theorem last_commit_cached_returned_verbatim (owner repo s : String)
    (pf : Bool) (u : UpstreamCommits) (hs : s ≠ "") :
    getRepoLastCommitDate owner repo (.value s) pf u = (some s, ⟨[], []⟩) := by
  simp [getRepoLastCommitDate, commitsCachedHit, hs]

/-- Witness for C9: a cached string that is plainly not a timestamp is
still returned as-is with no effects. -/
theorem last_commit_cached_returned_verbatim_witness :
    getRepoLastCommitDate "acme" "widgets" (.value "not-a-timestamp") false
        .throwErr = (some "not-a-timestamp", ⟨[], []⟩) :=
  last_commit_cached_returned_verbatim "acme" "widgets" "not-a-timestamp"
    false .throwErr (by decide)

/-- C10: `getRepoStars` treats a cached string as a warm hit exactly when
`Number.parseInt(·, 10)` yields a finite integer, returning that leading
integer with no upstream request; when the parse yields none (including
the empty string), the upstream request is issued. Concretely the parse
maps "42abc" to 42, "12.9" to 12, and "abc" and the empty string to
none. -/
theorem stars_cached_leading_integer (owner repo s : String) (pf : Bool)
    (u : UpstreamStars) :
    (∀ n : Int, parseIntBase10 s = some n →
        getRepoStars owner repo (.value s) pf u = (some n, ⟨[], []⟩)) ∧
    (parseIntBase10 s = none →
        (getRepoStars owner repo (.value s) pf u).2.requests
          = [starsUrl owner repo]) ∧
    parseIntBase10 "42abc" = some 42 ∧
    parseIntBase10 "12.9" = some 12 ∧
    parseIntBase10 "abc" = none ∧
    parseIntBase10 "" = none := by
  refine ⟨?_, ?_, by decide, by decide, by decide, by decide⟩
  · intro n hn
    exact getRepoStars_hit owner repo pf u (starsCachedHit_of_parse hn)
  · intro hn
    exact getRepoStars_miss_requests owner repo pf u
      (starsCachedHit_of_parse_none hn)

/-- Witness for C10: the cached string "42abc" is a hit returning 42 with
no request, and the cached string "abc" is a miss that issues the
upstream request. -/
theorem stars_cached_leading_integer_witness :
    getRepoStars "acme" "widgets" (.value "42abc") false (.ok none)
      = (some 42, ⟨[], []⟩) ∧
    (getRepoStars "acme" "widgets" (.value "abc") false
        (.ok (some 7))).2.requests = [starsUrl "acme" "widgets"] :=
  ⟨(stars_cached_leading_integer "acme" "widgets" "42abc" false
      (.ok none)).1 42 (by decide),
   (stars_cached_leading_integer "acme" "widgets" "abc" false
      (.ok (some 7))).2.1 (by decide)⟩

end RepoMeta
